import Mathlib

/-!
Shallow embedding of `src/Source/Value.hxx` (the `Karina` value core): the
tagged union `Value`, the shared-storage base `ValueData` with its share
counter, the heap-kind factories, copy/move construction, destruction,
`tryDereference`, and the asserted type testers and getters.

Heap payload objects (`String`, `Array`, `Dictionary`, `Closure`) live at
natural-number addresses; a heap maps an address to the payload living there
(`none` = no live object at that address).  Runtime assertions (`assert` in
the source) are modelled by returning `Option`: `none` means the assertion
fired (a trapped contract violation), `some` is the normal result.
-/

namespace Karina

/-- Mirrors the discriminant `Value::Type` of `Value.hxx` lines 61-72. -/
inductive VType
  | Null
  | Boolean
  | Integer
  | FloatingPoint
  | String
  | Array
  | Dictionary
  | Closure
  | Reference
  deriving DecidableEq, Repr

/-- Address of a heap-allocated `ValueData` payload object. -/
abbrev Addr := Nat

/-- Address of a `Value` object (the referent of `Value::reference_`). -/
abbrev VAddr := Nat

/-- Which concrete `ValueData` subclass a heap payload object is
(`String`, `Array`, `Dictionary`, `Closure`, `Value.hxx` lines 111-148). -/
inductive DataKind
  | string
  | array
  | dictionary
  | closure
  deriving DecidableEq, Repr

/-- A live `ValueData` instance: its dynamic kind and its share counter
`copyCount_` (`Value.hxx` line 104; a C++ `int`, so modelled as `Int`). -/
structure Payload where
  kind : DataKind
  copyCount_ : Int
  deriving DecidableEq, Repr

/-- The payload heap: which `ValueData` instance (if any) lives at each
address. -/
abbrev Heap := Addr → Option Payload

/-- Write one cell of an address-indexed map. -/
def fupdate {β : Type} (f : Nat → β) (a : Nat) (b : β) : Nat → β :=
  fun x => if x = a then b else f x

theorem fupdate_same {β : Type} (f : Nat → β) (a : Nat) (b : β) :
    fupdate f a b a = b := by
  simp [fupdate]

theorem fupdate_other {β : Type} (f : Nat → β) (a x : Nat) (b : β)
    (h : x ≠ a) : fupdate f a b x = f x := by
  simp [fupdate, h]

/-- Mirrors `ValueData::ValueData()` (lines 412-415): a freshly constructed payload
starts with `copyCount_ = 0`.  `k` is the dynamic kind of the subclass being
constructed. -/
def ValueData.fresh (k : DataKind) : Payload :=
  { kind := k, copyCount_ := 0 }

/-- Mirrors `ValueData::copy()` (lines 418-423): `++copyCount_; return this;` —
increments the share counter of the live instance at `a` and returns the
same address.  `none` models the undefined behavior of calling `copy`
through a dangling pointer (no live instance at `a`). -/
def ValueData.copy (h : Heap) (a : Addr) : Option (Heap × Addr) :=
  match h a with
  | some p => some (fupdate h a (some { p with copyCount_ := p.copyCount_ + 1 }), a)
  | none => none

/-- Mirrors `ValueData::destroy()` (lines 426-436): if `copyCount_ == 0` the
instance is deallocated (`delete this`), otherwise the counter is
decremented and the instance stays alive.  `none` models calling `destroy`
through a dangling pointer (e.g. a double release). -/
def ValueData.destroy (h : Heap) (a : Addr) : Option Heap :=
  match h a with
  | some p =>
      if p.copyCount_ = 0 then some (fupdate h a none)
      else some (fupdate h a (some { p with copyCount_ := p.copyCount_ - 1 }))
  | none => none

/-- The tagged union `Value` (lines 17-91): tag `type_` plus the one active
union member.  The C++ `unsigned long` is carried as a `Nat` and the
`double` as its stored bit pattern (a `Nat`); the core only stores and
copies these scalars, it never computes with them. -/
inductive Value
  | null
  | boolean (boolean_ : Bool)
  | integer (integer_ : Nat)
  | floatingPoint (floatingPoint_ : Nat)
  | string (string_ : Addr)
  | array (array_ : Addr)
  | dictionary (dictionary_ : Addr)
  | closure (closure_ : Addr)
  | reference (reference_ : VAddr)
  deriving DecidableEq, Repr

/-- The tag of a `Value` (the `type_` field). -/
def Value.type_ : Value → VType
  | .null => .Null
  | .boolean _ => .Boolean
  | .integer _ => .Integer
  | .floatingPoint _ => .FloatingPoint
  | .string _ => .String
  | .array _ => .Array
  | .dictionary _ => .Dictionary
  | .closure _ => .Closure
  | .reference _ => .Reference

/-- The payload address held by a heap-kind `Value` (`string_`, `array_`,
`dictionary_` or `closure_`); `none` for the other tags. -/
def Value.heapAddr : Value → Option Addr
  | .string a => some a
  | .array a => some a
  | .dictionary a => some a
  | .closure a => some a
  | _ => none

/-- Mirrors `Value::Value()` (lines 167-170): the default constructor produces
`Null`. -/
def Value.default : Value := .null

/-- Mirrors `VALUE_CONSTRUCTOR1(Boolean, bool, boolean_)` (line 180). -/
def Value.ctorBoolean (x : Bool) : Value := .boolean x

/-- Mirrors `VALUE_CONSTRUCTOR1(Integer, unsigned long, integer_)` (line 181). -/
def Value.ctorInteger (x : Nat) : Value := .integer x

/-- Mirrors `VALUE_CONSTRUCTOR1(FloatingPoint, double, floatingPoint_)` (line 182). -/
def Value.ctorFloatingPoint (x : Nat) : Value := .floatingPoint x

/-- Mirrors `VALUE_CONSTRUCTOR1(Reference, Value *, reference_)` (line 183):
`Value::Value(Value *x) : type_(Type::Reference), reference_(x) {}`.
The constructor stores the pointer and performs no check of any kind on the
referent. -/
def Value.ctorReference (x : VAddr) : Value := .reference x

/-- Mirrors `VALUE_CONSTRUCTOR2(String, String *, string_)` (line 195). -/
def Value.ctorString (x : Addr) : Value := .string x

/-- Mirrors `VALUE_CONSTRUCTOR2(Array, Array *, array_)` (line 196). -/
def Value.ctorArray (x : Addr) : Value := .array x

/-- Mirrors `VALUE_CONSTRUCTOR2(Dictionary, Dictionary *, dictionary_)` (line 197). -/
def Value.ctorDictionary (x : Addr) : Value := .dictionary x

/-- Mirrors `VALUE_CONSTRUCTOR2(Closure, Closure *, closure_)` (line 198). -/
def Value.ctorClosure (x : Addr) : Value := .closure x

/-- Mirrors `VALUE_MAKER(String)` (lines 151-159):
`return Value(new String(std::forward<Args>(args)...));` — allocates a fresh
`String` payload (share count 0) at the fresh address `a` and wraps it via
the `Value(String *)` constructor.  Constructor arguments only reach the
unshown payload contents, so they do not appear in the model. -/
def Value.MakeString (h : Heap) (a : Addr) : Heap × Value :=
  (fupdate h a (some (ValueData.fresh .string)), Value.ctorString a)

/-- Mirrors `VALUE_MAKER(Array)` (lines 151-160).  The macro body is literally
`return Value(new String(std::forward<Args>(args)...));` for every maker:
`MakeArray` also allocates a `String` payload, and the overload selected is
the `Value(String *)` constructor, so the result is tagged `String`. -/
def Value.MakeArray (h : Heap) (a : Addr) : Heap × Value :=
  (fupdate h a (some (ValueData.fresh .string)), Value.ctorString a)

/-- Mirrors `VALUE_MAKER(Dictionary)` (lines 151-161): same macro body, so it too
allocates a `String` payload and returns a `String`-tagged `Value`. -/
def Value.MakeDictionary (h : Heap) (a : Addr) : Heap × Value :=
  (fupdate h a (some (ValueData.fresh .string)), Value.ctorString a)

/-- Mirrors `VALUE_MAKER(Closure)` (lines 151-162): same macro body, so it too
allocates a `String` payload and returns a `String`-tagged `Value`. -/
def Value.MakeClosure (h : Heap) (a : Addr) : Heap × Value :=
  (fupdate h a (some (ValueData.fresh .string)), Value.ctorString a)

/-- Mirrors `Value::Value(const Value &other)` (lines 203-248): scalars are copied
inline; for each heap kind the payload's `copy()` is invoked on the source's
pointer and the returned pointer is stored; copying a `Reference` is
`assert(false)` (modelled `none`).  The result is the updated heap together
with the constructed `Value`. -/
def Value.copyCtor (h : Heap) (other : Value) : Option (Heap × Value) :=
  match other with
  | .null => some (h, .null)
  | .boolean b => some (h, .boolean b)
  | .integer i => some (h, .integer i)
  | .floatingPoint f => some (h, .floatingPoint f)
  | .string a => (ValueData.copy h a).map fun x => (x.1, Value.string x.2)
  | .array a => (ValueData.copy h a).map fun x => (x.1, Value.array x.2)
  | .dictionary a => (ValueData.copy h a).map fun x => (x.1, Value.dictionary x.2)
  | .closure a => (ValueData.copy h a).map fun x => (x.1, Value.closure x.2)
  | .reference _ => none

/-- Mirrors `Value::Value(Value &&other)` (lines 251-300): scalars are copied inline
and `other` is left untouched; for each heap kind the pointer is taken over
unchanged (no `copy()` call, so the heap is not read or written) and
`other.type_` is reset to `Null`; moving from a `Reference` is
`assert(false)` (modelled `none`).  The result is the constructed `Value`
together with the residual state of `other`. -/
def Value.moveCtor (other : Value) : Option (Value × Value) :=
  match other with
  | .null => some (.null, .null)
  | .boolean b => some (.boolean b, .boolean b)
  | .integer i => some (.integer i, .integer i)
  | .floatingPoint f => some (.floatingPoint f, .floatingPoint f)
  | .string a => some (.string a, .null)
  | .array a => some (.array a, .null)
  | .dictionary a => some (.dictionary a, .null)
  | .closure a => some (.closure a, .null)
  | .reference _ => none

/-- Mirrors `Value::~Value()` (lines 303-329): heap kinds call the payload's
`destroy()`; `Null`, scalars and `Reference` do nothing. -/
def Value.dtor (h : Heap) (v : Value) : Option Heap :=
  match v with
  | .string a => ValueData.destroy h a
  | .array a => ValueData.destroy h a
  | .dictionary a => ValueData.destroy h a
  | .closure a => ValueData.destroy h a
  | _ => some h

/-- A store of `Value` objects by address, used to model the raw
`Value *reference_` back-pointer. -/
abbrev VStore := VAddr → Value

/-- Mirrors `Value::tryDereference()` (lines 349-358): on a `Reference`, asserts
that the referent is not itself a `Reference` and returns the referent's
address; on any other tag returns the value's own address (`this`). -/
def Value.tryDereference (s : VStore) (self : VAddr) : Option VAddr :=
  match s self with
  | .reference r =>
      if (s r).type_ = VType.Reference then none else some r
  | _ => some self

/-- Mirrors `VALUE_TYPE_TESTER(Null)` (lines 361-369): asserts the value is not a
`Reference`, then reports whether the tag is `Null`. -/
def Value.isNull (v : Value) : Option Bool :=
  if v.type_ = VType.Reference then none else some (v.type_ = VType.Null)

/-- Mirrors `VALUE_TYPE_TESTER(Boolean)` (line 370). -/
def Value.isBoolean (v : Value) : Option Bool :=
  if v.type_ = VType.Reference then none else some (v.type_ = VType.Boolean)

/-- Mirrors `VALUE_TYPE_TESTER(Integer)` (line 371). -/
def Value.isInteger (v : Value) : Option Bool :=
  if v.type_ = VType.Reference then none else some (v.type_ = VType.Integer)

/-- Mirrors `VALUE_TYPE_TESTER(FloatingPoint)` (line 372). -/
def Value.isFloatingPoint (v : Value) : Option Bool :=
  if v.type_ = VType.Reference then none else some (v.type_ = VType.FloatingPoint)

/-- Mirrors `VALUE_TYPE_TESTER(String)` (line 373). -/
def Value.isString (v : Value) : Option Bool :=
  if v.type_ = VType.Reference then none else some (v.type_ = VType.String)

/-- Mirrors `VALUE_TYPE_TESTER(Array)` (line 374). -/
def Value.isArray (v : Value) : Option Bool :=
  if v.type_ = VType.Reference then none else some (v.type_ = VType.Array)

/-- Mirrors `VALUE_TYPE_TESTER(Dictionary)` (line 375). -/
def Value.isDictionary (v : Value) : Option Bool :=
  if v.type_ = VType.Reference then none else some (v.type_ = VType.Dictionary)

/-- Mirrors `VALUE_TYPE_TESTER(Closure)` (line 376). -/
def Value.isClosure (v : Value) : Option Bool :=
  if v.type_ = VType.Reference then none else some (v.type_ = VType.Closure)

/-- Mirrors `VALUE_DATA_GETTER1(Boolean, bool, boolean_)` (lines 381-389): asserts
the tag is `Boolean` and returns a pointer to the inline field (modelled as
the field's value). -/
def Value.getBoolean : Value → Option Bool
  | .boolean b => some b
  | _ => none

/-- Mirrors `VALUE_DATA_GETTER1(Integer, unsigned long, integer_)` (line 390). -/
def Value.getInteger : Value → Option Nat
  | .integer i => some i
  | _ => none

/-- Mirrors `VALUE_DATA_GETTER1(FloatingPoint, double, floatingPoint_)` (line 391). -/
def Value.getFloatingPoint : Value → Option Nat
  | .floatingPoint f => some f
  | _ => none

/-- Mirrors `VALUE_DATA_GETTER2(String, String *, string_)` (lines 396-404): asserts
the tag is `String` and returns the owned payload pointer. -/
def Value.getString : Value → Option Addr
  | .string a => some a
  | _ => none

/-- Mirrors `VALUE_DATA_GETTER2(Array, Array *, array_)` (line 405). -/
def Value.getArray : Value → Option Addr
  | .array a => some a
  | _ => none

/-- Mirrors `VALUE_DATA_GETTER2(Dictionary, Dictionary *, dictionary_)` (line 406). -/
def Value.getDictionary : Value → Option Addr
  | .dictionary a => some a
  | _ => none

/-- Mirrors `VALUE_DATA_GETTER2(Closure, Closure *, closure_)` (line 407). -/
def Value.getClosure : Value → Option Addr
  | .closure a => some a
  | _ => none

/-- Helper for C6 and C7: `tryDereference` on a value whose tag is not
`Reference` returns the value's own address. -/
theorem tryDereference_self (s : VStore) (a : VAddr)
    (hna : (s a).type_ ≠ VType.Reference) :
    Value.tryDereference s a = some a := by
  cases hsa : s a
  case reference r => simp [hsa, Value.type_] at hna
  all_goals simp [Value.tryDereference, hsa]

/-- C1: evaluated at the failing input (the empty heap with fresh address
0).  The factory macro body allocates `new String(...)` for every maker, so
`MakeArray`, `MakeDictionary` and `MakeClosure` each create a payload of
dynamic kind `String` and return a `String`-tagged `Value` — `isArray`
(resp. `isDictionary`, `isClosure`) on the result reports `false`; only
`MakeString` matches its kind. -/
theorem make_factories_allocate_string :
    (Value.MakeString (fun _ => none) 0).2.type_ = VType.String ∧
    (Value.MakeArray (fun _ => none) 0).2.type_ = VType.String ∧
    Value.isArray (Value.MakeArray (fun _ => none) 0).2 = some false ∧
    (Value.MakeArray (fun _ => none) 0).1 0 = some (ValueData.fresh DataKind.string) ∧
    (Value.MakeDictionary (fun _ => none) 0).2.type_ = VType.String ∧
    Value.isDictionary (Value.MakeDictionary (fun _ => none) 0).2 = some false ∧
    (Value.MakeDictionary (fun _ => none) 0).1 0 = some (ValueData.fresh DataKind.string) ∧
    (Value.MakeClosure (fun _ => none) 0).2.type_ = VType.String ∧
    Value.isClosure (Value.MakeClosure (fun _ => none) 0).2 = some false ∧
    (Value.MakeClosure (fun _ => none) 0).1 0 = some (ValueData.fresh DataKind.string) := by
  decide

/-- C4: copy construction from a heap-kind `Value` stores the very same
payload address — the constructed `Value` equals the source, so every
getter agrees on the two — and bumps that payload's share count by exactly
one, leaving every other heap cell untouched: a shallow, reference-counted
copy, not a structural clone. -/
theorem copy_ctor_shares_pointer (h : Heap) (v : Value) (a : Addr) (p : Payload)
    (hv : v.heapAddr = some a) (hp : h a = some p) :
    ∃ h2, Value.copyCtor h v = some (h2, v) ∧
      h2 a = some { p with copyCount_ := p.copyCount_ + 1 } ∧
      ∀ b, b ≠ a → h2 b = h b := by
  refine ⟨fupdate h a (some { p with copyCount_ := p.copyCount_ + 1 }), ?_, ?_, ?_⟩
  · cases v <;> simp [Value.heapAddr] at hv <;> subst hv <;>
      simp [Value.copyCtor, ValueData.copy, hp]
  · exact fupdate_same ..
  · intro b hb
    exact fupdate_other _ _ _ _ hb

/-- Concrete heap for the C4 witness: one live `Array` payload with share
count 3 at address 5. -/
def exHeap : Heap :=
  fun x => if x = 5 then some ⟨DataKind.array, 3⟩ else none

/-- The C4 theorem applied at the concrete input `exHeap`, `Value.array 5`. -/
theorem copy_ctor_shares_pointer_witness :
    ∃ h2, Value.copyCtor exHeap (Value.array 5) = some (h2, Value.array 5) ∧
      h2 5 = some ⟨DataKind.array, 3 + 1⟩ ∧
      ∀ b, b ≠ 5 → h2 b = exHeap b :=
  copy_ctor_shares_pointer exHeap (Value.array 5) 5 ⟨DataKind.array, 3⟩ rfl rfl

/-- C5: move construction from a heap-kind `Value` hands the constructed
`Value` the original payload pointer and tag unchanged (it equals the
source) and leaves the source in the `Null` state, on which `isNull`
reports `some true`.  `Value.moveCtor` neither reads nor writes any `Heap`,
so the payload's share count is not modified: `ValueData::copy` is not
invoked. -/
theorem move_ctor_transfers_pointer (v : Value) (a : Addr)
    (hv : v.heapAddr = some a) :
    Value.moveCtor v = some (v, Value.null) ∧
    Value.isNull Value.null = some true ∧
    v.heapAddr = some a := by
  cases v <;> simp [Value.heapAddr] at hv <;>
    simp [Value.moveCtor, Value.isNull, Value.type_, Value.heapAddr, hv]

/-- The C5 theorem applied at the concrete input `Value.closure 7`. -/
theorem move_ctor_transfers_pointer_witness :
    Value.moveCtor (Value.closure 7) = some (Value.closure 7, Value.null) ∧
    Value.isNull Value.null = some true ∧
    (Value.closure 7).heapAddr = some 7 :=
  move_ctor_transfers_pointer (Value.closure 7) 7 rfl

/-- C10: moving from a `Value` tagged `Null`, `Boolean`, `Integer` or
`FloatingPoint` leaves the source completely unchanged — the residual state
equals the source, same tag and same scalar payload, while the constructed
`Value` duplicates it — and the residual differs from the source only when
the source's tag is one of the four heap kinds. -/
theorem move_ctor_scalar_frame (v : Value) :
    (v.type_ = VType.Null ∨ v.type_ = VType.Boolean ∨ v.type_ = VType.Integer ∨
        v.type_ = VType.FloatingPoint →
      Value.moveCtor v = some (v, v)) ∧
    (∀ v2 vres, Value.moveCtor v = some (v2, vres) → vres ≠ v →
      ∃ a, v.heapAddr = some a) := by
  cases v <;>
    simp [Value.moveCtor, Value.type_, Value.heapAddr]

/-- The C10 theorem applied at the concrete input `Value.integer 42`. -/
theorem move_ctor_scalar_frame_witness :
    Value.moveCtor (Value.integer 42) = some (Value.integer 42, Value.integer 42) :=
  (move_ctor_scalar_frame (Value.integer 42)).1 (Or.inr (Or.inr (Or.inl rfl)))

/-- C8: on a `Reference`-tagged `Value` every one of the eight type testers
traps (the `assert` fires, modelled `none`), as do copy and move
construction; on a non-`Reference` `Value` every tester returns normally
(the assertion branch is unreachable); and each getter returns normally
exactly when the tag equals the requested kind, trapping otherwise. -/
theorem asserted_contracts (v : Value) (h : Heap) :
    (v.type_ = VType.Reference →
      v.isNull = none ∧ v.isBoolean = none ∧ v.isInteger = none ∧
      v.isFloatingPoint = none ∧ v.isString = none ∧ v.isArray = none ∧
      v.isDictionary = none ∧ v.isClosure = none ∧
      Value.copyCtor h v = none ∧ Value.moveCtor v = none) ∧
    (v.type_ ≠ VType.Reference →
      (v.isNull).isSome ∧ (v.isBoolean).isSome ∧ (v.isInteger).isSome ∧
      (v.isFloatingPoint).isSome ∧ (v.isString).isSome ∧ (v.isArray).isSome ∧
      (v.isDictionary).isSome ∧ (v.isClosure).isSome) ∧
    ((v.getBoolean).isSome ↔ v.type_ = VType.Boolean) ∧
    ((v.getInteger).isSome ↔ v.type_ = VType.Integer) ∧
    ((v.getFloatingPoint).isSome ↔ v.type_ = VType.FloatingPoint) ∧
    ((v.getString).isSome ↔ v.type_ = VType.String) ∧
    ((v.getArray).isSome ↔ v.type_ = VType.Array) ∧
    ((v.getDictionary).isSome ↔ v.type_ = VType.Dictionary) ∧
    ((v.getClosure).isSome ↔ v.type_ = VType.Closure) := by
  cases v <;>
    simp [Value.type_, Value.isNull, Value.isBoolean, Value.isInteger,
      Value.isFloatingPoint, Value.isString, Value.isArray, Value.isDictionary,
      Value.isClosure, Value.getBoolean, Value.getInteger, Value.getFloatingPoint,
      Value.getString, Value.getArray, Value.getDictionary, Value.getClosure,
      Value.copyCtor, Value.moveCtor]

/-- The C8 theorem's `Reference` arm applied at the concrete input
`Value.reference 3` over the empty heap. -/
theorem asserted_contracts_witness :
    (Value.reference 3).isNull = none ∧ (Value.reference 3).isBoolean = none ∧
    (Value.reference 3).isInteger = none ∧ (Value.reference 3).isFloatingPoint = none ∧
    (Value.reference 3).isString = none ∧ (Value.reference 3).isArray = none ∧
    (Value.reference 3).isDictionary = none ∧ (Value.reference 3).isClosure = none ∧
    Value.copyCtor (fun _ => none) (Value.reference 3) = none ∧
    Value.moveCtor (Value.reference 3) = none :=
  (asserted_contracts (Value.reference 3) (fun _ => none)).1 rfl

/-- C6: `tryDereference` on a non-`Reference` value returns the value's own
address; on a `Reference` whose referent is not itself a `Reference` it
returns the referent's address, and the value stored there is never tagged
`Reference`; hence dereferencing is idempotent after one application:
whatever address it returns, applying it again at that address returns the
same address. -/
theorem tryDereference_spec (s : VStore) (a : VAddr) :
    ((s a).type_ ≠ VType.Reference → Value.tryDereference s a = some a) ∧
    (∀ r, s a = Value.reference r → (s r).type_ ≠ VType.Reference →
      Value.tryDereference s a = some r ∧ (s r).type_ ≠ VType.Reference) ∧
    (∀ b, Value.tryDereference s a = some b →
      Value.tryDereference s b = some b) := by
  refine ⟨tryDereference_self s a, ?_, ?_⟩
  · intro r hr hnr
    exact ⟨by simp [Value.tryDereference, hr, hnr], hnr⟩
  · intro b hb
    cases hsa : s a with
    | reference r =>
        rw [Value.tryDereference, hsa] at hb
        by_cases hc : (s r).type_ = VType.Reference
        · simp [hc] at hb
        · simp [hc] at hb
          subst hb
          exact tryDereference_self s r hc
    | null =>
        rw [Value.tryDereference, hsa] at hb
        cases hb
        exact tryDereference_self s a (by simp [hsa, Value.type_])
    | boolean x =>
        rw [Value.tryDereference, hsa] at hb
        cases hb
        exact tryDereference_self s a (by simp [hsa, Value.type_])
    | integer x =>
        rw [Value.tryDereference, hsa] at hb
        cases hb
        exact tryDereference_self s a (by simp [hsa, Value.type_])
    | floatingPoint x =>
        rw [Value.tryDereference, hsa] at hb
        cases hb
        exact tryDereference_self s a (by simp [hsa, Value.type_])
    | string x =>
        rw [Value.tryDereference, hsa] at hb
        cases hb
        exact tryDereference_self s a (by simp [hsa, Value.type_])
    | array x =>
        rw [Value.tryDereference, hsa] at hb
        cases hb
        exact tryDereference_self s a (by simp [hsa, Value.type_])
    | dictionary x =>
        rw [Value.tryDereference, hsa] at hb
        cases hb
        exact tryDereference_self s a (by simp [hsa, Value.type_])
    | closure x =>
        rw [Value.tryDereference, hsa] at hb
        cases hb
        exact tryDereference_self s a (by simp [hsa, Value.type_])

/-- Concrete store for the C6 witness: address 1 holds a `Reference` to
address 0, which holds a `Boolean`. -/
def exStore : VStore :=
  fun x => if x = 1 then Value.reference 0 else Value.boolean true

/-- The C6 theorem's `Reference` arm applied at the concrete input
`exStore`, address 1. -/
theorem tryDereference_spec_witness :
    Value.tryDereference exStore 1 = some 0 ∧
    (exStore 0).type_ ≠ VType.Reference :=
  (tryDereference_spec exStore 1).2.1 0 rfl (by decide)

/-- Concrete store refuting C7 as stated: address 0 holds a
`Reference`-tagged `Value`, and address 1 holds the `Value` built by the
`Reference` constructor from a pointer to address 0. -/
def chainStore : VStore :=
  fun x => if x = 1 then Value.ctorReference 0 else Value.reference 2

/-- Counterexample to C7 at a concrete input: in `chainStore` the value at
address 0 is itself tagged `Reference`, yet `Value::Value(Value *)` applied
to a pointer to it performs no check and successfully yields a
`Reference`-tagged `Value` — a chained `Reference` is created at
construction time; the assertion that traps chaining fires only later, in
`tryDereference` (which returns `none` here). -/
theorem reference_ctor_unchecked_cex :
    (chainStore 0).type_ = VType.Reference ∧
    Value.ctorReference 0 = Value.reference 0 ∧
    (Value.ctorReference 0).type_ = VType.Reference ∧
    Value.tryDereference chainStore 1 = none := by
  decide

/-- C7 as amended: the `Reference` constructor performs no check — for
every referent address it simply stores the pointer and tags the result
`Reference`, even when the referent is itself tagged `Reference` — and the
no-chaining invariant is instead enforced by the runtime assertion in
`tryDereference`, which traps (returns `none`) exactly when the value being
dereferenced is a `Reference` whose referent is itself tagged `Reference`. -/
theorem reference_checked_at_dereference (s : VStore) (x : VAddr) :
    Value.ctorReference x = Value.reference x ∧
    (Value.ctorReference x).type_ = VType.Reference ∧
    (∀ r, s x = Value.reference r →
      ((s r).type_ = VType.Reference ↔ Value.tryDereference s x = none)) := by
  refine ⟨rfl, rfl, ?_⟩
  intro r hr
  by_cases hc : (s r).type_ = VType.Reference
  · simp [Value.tryDereference, hr, hc]
  · simp [Value.tryDereference, hr, hc]

/-- The amended C7 theorem applied at the concrete input `chainStore`,
address 1 (whose referent, address 0, is itself a `Reference`). -/
theorem reference_checked_at_dereference_witness :
    (chainStore 0).type_ = VType.Reference ↔
      Value.tryDereference chainStore 1 = none :=
  (reference_checked_at_dereference chainStore 1).2.2 0 rfl

/-- Runs `n` successive `ValueData::copy()` calls through address `a`,
threading the heap (the test-harness loop that shares a payload `n`
times). -/
def copyN : Heap → Addr → Nat → Option Heap
  | h, _, 0 => some h
  | h, a, n + 1 => (ValueData.copy h a).bind fun x => copyN x.1 a n

/-- Runs `n` successive `ValueData::destroy()` calls through address `a`,
threading the heap (the test-harness loop that releases a payload `n`
times). -/
def destroyN : Heap → Addr → Nat → Option Heap
  | h, _, 0 => some h
  | h, a, n + 1 => (ValueData.destroy h a).bind fun h2 => destroyN h2 a n

/-- Sharing `n` times adds `n` to the share count of the live payload at
`a`. -/
theorem copyN_count (a : Addr) (k : DataKind) :
    ∀ (n : Nat) (h : Heap) (c : Int), h a = some ⟨k, c⟩ →
      ∃ h2, copyN h a n = some h2 ∧ h2 a = some ⟨k, c + n⟩ := by
  intro n
  induction n with
  | zero =>
      intro h c hc
      exact ⟨h, rfl, by simpa using hc⟩
  | succ n ih =>
      intro h c hc
      have hcopy : ValueData.copy h a =
          some (fupdate h a (some ⟨k, c + 1⟩), a) := by
        simp [ValueData.copy, hc]
      obtain ⟨h2, hrun, hat⟩ :=
        ih (fupdate h a (some ⟨k, c + 1⟩)) (c + 1) (fupdate_same ..)
      refine ⟨h2, ?_, ?_⟩
      · simp [copyN, hcopy, hrun]
      · rw [hat]
        congr 1
        push_cast
        ring_nf

/-- Releasing `j ≤ copy count` times leaves the payload at `a` alive and
subtracts `j` from its share count. -/
theorem destroyN_live (a : Addr) (k : DataKind) :
    ∀ (j : Nat) (h : Heap) (c : Int), (j : Int) ≤ c → h a = some ⟨k, c⟩ →
      ∃ h2, destroyN h a j = some h2 ∧ h2 a = some ⟨k, c - j⟩ := by
  intro j
  induction j with
  | zero =>
      intro h c _ hc
      exact ⟨h, rfl, by simpa using hc⟩
  | succ j ih =>
      intro h c hj hc
      have hne : ¬ c = 0 := by
        push_cast at hj
        omega
      have hdes : ValueData.destroy h a =
          some (fupdate h a (some ⟨k, c - 1⟩)) := by
        simp [ValueData.destroy, hc, hne]
      obtain ⟨h2, hrun, hat⟩ :=
        ih (fupdate h a (some ⟨k, c - 1⟩)) (c - 1)
          (by push_cast at hj ⊢; omega) (fupdate_same ..)
      refine ⟨h2, ?_, ?_⟩
      · simp [destroyN, hdes, hrun]
      · rw [hat]
        congr 1
        push_cast
        ring_nf

/-- Releases compose: `i + j` releases are `i` releases then `j`
releases. -/
theorem destroyN_add (a : Addr) :
    ∀ (i j : Nat) (h : Heap),
      destroyN h a (i + j) = (destroyN h a i).bind fun h2 => destroyN h2 a j := by
  intro i
  induction i with
  | zero =>
      intro j h
      simp [destroyN, Nat.zero_add]
  | succ i ih =>
      intro j h
      rw [Nat.succ_add]
      cases hd : ValueData.destroy h a with
      | none => simp [destroyN, hd]
      | some h2 => simp [destroyN, hd, ih]

/-- C2: a freshly constructed payload (share count 0) at address `a`,
shared `n` times and then released `n + 1` times, stays alive through each
of the first `n` releases (only the share count goes down), is deallocated
exactly by the final, `(n+1)`-th release, and one further release is a
trapped double free (`ValueData::destroy` through a dangling pointer,
modelled `none`). -/
theorem share_release_protocol (h : Heap) (a : Addr) (k : DataKind) (n : Nat)
    (hc : h a = some (ValueData.fresh k)) :
    ∃ hs, copyN h a n = some hs ∧ hs a = some ⟨k, (n : Int)⟩ ∧
      (∀ j : Nat, j ≤ n → ∃ hd, destroyN hs a j = some hd ∧
        hd a = some ⟨k, (n : Int) - j⟩) ∧
      (∃ hfin, destroyN hs a (n + 1) = some hfin ∧ hfin a = none ∧
        ValueData.destroy hfin a = none) := by
  obtain ⟨hs, hrun, hat⟩ := copyN_count a k n h 0 hc
  rw [zero_add] at hat
  refine ⟨hs, hrun, hat, ?_, ?_⟩
  · intro j hj
    exact destroyN_live a k j hs (n : Int) (by exact_mod_cast hj) hat
  · obtain ⟨hd, hdrun, hdat⟩ :=
      destroyN_live a k n hs (n : Int) le_rfl hat
    rw [sub_self] at hdat
    have hlast : ValueData.destroy hd a = some (fupdate hd a none) := by
      simp [ValueData.destroy, hdat]
    refine ⟨fupdate hd a none, ?_, fupdate_same .., ?_⟩
    · rw [destroyN_add a n 1 hs, hdrun]
      simp [destroyN, hlast]
    · simp [ValueData.destroy, fupdate_same]

/-- Concrete heap for the C2 witness: one freshly constructed `Closure`
payload at address 4. -/
def freshHeap : Heap :=
  fun x => if x = 4 then some (ValueData.fresh DataKind.closure) else none

/-- The C2 theorem applied at the concrete input `freshHeap`, address 4,
`n = 2`. -/
theorem share_release_protocol_witness :
    ∃ hs, copyN freshHeap 4 2 = some hs ∧ hs 4 = some ⟨DataKind.closure, (2 : Int)⟩ ∧
      (∀ j : Nat, j ≤ 2 → ∃ hd, destroyN hs 4 j = some hd ∧
        hd 4 = some ⟨DataKind.closure, (2 : Int) - j⟩) ∧
      (∃ hfin, destroyN hs 4 (2 + 1) = some hfin ∧ hfin 4 = none ∧
        ValueData.destroy hfin 4 = none) :=
  share_release_protocol freshHeap 4 DataKind.closure 2 rfl

/-- The whole-program ownership state: the payload heap together with, for
each payload address, the number of live owning `Value`s currently holding
that address in their union. -/
structure CoreState where
  heap : Heap
  owners : Addr → Nat

/-- The state in which a program starts: no payloads, no owners. -/
def CoreState.init : CoreState := ⟨fun _ => none, fun _ => 0⟩

/-- One operation of the core, by its effect on the payload heap and the
owner census.  `make` is a heap-kind factory: it allocates a fresh payload
(`ValueData::ValueData()`, share count 0) at an unused address and wraps it
in one new owning `Value`.  `copyVal` is copy construction from a live
owning `Value`: `ValueData::copy` runs on the payload and one more owning
`Value` appears.  `moveVal` is move construction from a live owning
`Value`: the pointer is transferred and the source tag is nulled, so the
heap and the owner count are untouched.  `scalar` is any construction, copy,
move or destruction of a `Value` whose tag is not a heap kind: it touches
neither the heap nor any owner count.  `destroyVal` is `Value::~Value()` on
a live owning `Value` of heap kind: `ValueData::destroy` runs on the
payload and one owning `Value` disappears. -/
inductive Step : CoreState → CoreState → Prop
  | make (s : CoreState) (a : Addr) (k : DataKind) (hfresh : s.heap a = none) :
      Step s ⟨fupdate s.heap a (some (ValueData.fresh k)),
              fupdate s.owners a (s.owners a + 1)⟩
  | copyVal (s : CoreState) (a : Addr) (h2 : Heap) (a2 : Addr)
      (howner : 1 ≤ s.owners a)
      (hcopy : ValueData.copy s.heap a = some (h2, a2)) :
      Step s ⟨h2, fupdate s.owners a (s.owners a + 1)⟩
  | moveVal (s : CoreState) (a : Addr) (howner : 1 ≤ s.owners a) : Step s s
  | scalar (s : CoreState) : Step s s
  | destroyVal (s : CoreState) (a : Addr) (h2 : Heap)
      (howner : 1 ≤ s.owners a)
      (hdes : ValueData.destroy s.heap a = some h2) :
      Step s ⟨h2, fupdate s.owners a (s.owners a - 1)⟩

/-- The ownership invariant of the core: every live payload has a
non-negative share count equal to its number of live owning `Value`s minus
one, and an address with no live payload has no owners. -/
def OwnershipInv (s : CoreState) : Prop :=
  ∀ a, (∀ p, s.heap a = some p →
          0 ≤ p.copyCount_ ∧ (s.owners a : Int) = p.copyCount_ + 1) ∧
       (s.heap a = none → s.owners a = 0)

/-- Helper for C3: each single operation preserves the ownership
invariant. -/
theorem step_preserves_inv (s s2 : CoreState) (hinv : OwnershipInv s)
    (hstep : Step s s2) : OwnershipInv s2 := by
  cases hstep with
  | make a k hfresh =>
      intro x
      rcases hinv x with ⟨hlive, hdead⟩
      by_cases hx : x = a
      · subst hx
        have h0 : s.owners x = 0 := hdead hfresh
        refine ⟨?_, ?_⟩
        · intro p hp
          simp only [fupdate_same] at hp ⊢
          obtain rfl : ValueData.fresh k = p := Option.some.inj hp
          refine ⟨le_refl 0, ?_⟩
          rw [h0]
          simp [ValueData.fresh]
        · intro hp
          simp only [fupdate_same] at hp
          exact Option.noConfusion hp
      · simp only [fupdate_other _ _ _ _ hx]
        exact ⟨hlive, hdead⟩
  | copyVal a h2 a2 howner hcopy =>
      rcases hinv a with ⟨hliveA, hdeadA⟩
      cases hsa : s.heap a with
      | none =>
          simp only [ValueData.copy, hsa] at hcopy
          exact Option.noConfusion hcopy
      | some p =>
          simp only [ValueData.copy, hsa, Option.some.injEq, Prod.mk.injEq] at hcopy
          obtain ⟨rfl, rfl⟩ := hcopy
          obtain ⟨hnn, hcount⟩ := hliveA p hsa
          intro x
          rcases hinv x with ⟨hlive, hdead⟩
          by_cases hx : x = a
          · subst hx
            refine ⟨?_, ?_⟩
            · intro q hq
              simp only [fupdate_same] at hq ⊢
              obtain rfl := Option.some.inj hq
              refine ⟨by dsimp only; omega, ?_⟩
              dsimp only
              push_cast
              omega
            · intro hq
              simp only [fupdate_same] at hq
              exact Option.noConfusion hq
          · simp only [fupdate_other _ _ _ _ hx]
            exact ⟨hlive, hdead⟩
  | moveVal a howner => exact hinv
  | scalar => exact hinv
  | destroyVal a h2 howner hdes =>
      rcases hinv a with ⟨hliveA, hdeadA⟩
      cases hsa : s.heap a with
      | none =>
          simp only [ValueData.destroy, hsa] at hdes
          exact Option.noConfusion hdes
      | some p =>
          obtain ⟨hnn, hcount⟩ := hliveA p hsa
          simp only [ValueData.destroy, hsa] at hdes
          by_cases hz : p.copyCount_ = 0
          · rw [if_pos hz] at hdes
            obtain rfl := Option.some.inj hdes
            intro x
            rcases hinv x with ⟨hlive, hdead⟩
            by_cases hx : x = a
            · subst hx
              refine ⟨?_, ?_⟩
              · intro q hq
                simp only [fupdate_same] at hq
                exact Option.noConfusion hq
              · intro hq
                simp only [fupdate_same]
                rw [hz] at hcount
                omega
            · simp only [fupdate_other _ _ _ _ hx]
              exact ⟨hlive, hdead⟩
          · rw [if_neg hz] at hdes
            obtain rfl := Option.some.inj hdes
            intro x
            rcases hinv x with ⟨hlive, hdead⟩
            by_cases hx : x = a
            · subst hx
              refine ⟨?_, ?_⟩
              · intro q hq
                simp only [fupdate_same] at hq ⊢
                obtain rfl := Option.some.inj hq
                refine ⟨by dsimp only; omega, ?_⟩
                dsimp only
                omega
              · intro hq
                simp only [fupdate_same] at hq
                exact Option.noConfusion hq
            · simp only [fupdate_other _ _ _ _ hx]
              exact ⟨hlive, hdead⟩

/-- C3: every operation of the core preserves the ownership invariant —
the share count of every live payload is non-negative and the number of
live owning `Value`s for it is the share count plus one — and consequently
the invariant holds after any sequence of constructions, copies, moves and
destructions starting from the empty state. -/
theorem ownership_invariant :
    (∀ s s2 : CoreState, OwnershipInv s → Step s s2 → OwnershipInv s2) ∧
    (∀ s : CoreState, Relation.ReflTransGen Step CoreState.init s →
      OwnershipInv s) := by
  have hinit : OwnershipInv CoreState.init := by
    intro a
    refine ⟨?_, ?_⟩
    · intro p hp
      exact Option.noConfusion hp
    · intro _
      rfl
  refine ⟨step_preserves_inv, ?_⟩
  intro s hreach
  induction hreach with
  | refl => exact hinit
  | tail _ hstep ih => exact step_preserves_inv _ _ ih hstep

/-- The state after one `make` operation at address 0 from the empty
state. -/
def exState : CoreState :=
  ⟨fupdate (fun _ => none) 0 (some (ValueData.fresh DataKind.array)),
   fupdate (fun _ => 0) 0 1⟩

/-- The C3 theorem applied at the concrete reachable state `exState` (one
allocation from the initial state). -/
theorem ownership_invariant_witness : OwnershipInv exState :=
  ownership_invariant.2 exState
    (Relation.ReflTransGen.single (Step.make CoreState.init 0 DataKind.array rfl))

end Karina
